import Mathlib

/-!
Shallow embedding of the FinanceFriend Telegram bot's conversational core
(src/main.py, src/gemini_client.py, src/penalty_system.py,
src/video_extractor.py) together with theorems that settle the
specification's claims about it.

Strings are modelled as Lean `String` (a list of characters), Python float
amounts as exact rationals, and the external effects (the Telegram
transport, the Gemini backend call, yt-dlp) as explicit parameters.
-/

/-- Python `str.lower()` (ASCII case folding, characterwise). -/
def toLowerStr (s : String) : String := String.mk (s.data.map Char.toLower)

/-- Whether `needle` occurs as a contiguous sublist of `hay`. -/
def listIsSubstring (needle : List Char) : List Char → Bool
  | [] => needle.isEmpty
  | c :: rest => needle.isPrefixOf (c :: rest) || listIsSubstring needle rest

/-- Python's substring test `needle in hay`. -/
def strContains (hay needle : String) : Bool := listIsSubstring needle.data hay.data

/-!
The markdown sanitizer `_clean_markdown_response` (main.py 470-491): five
`re.sub` passes applied in order.  Each pattern has the shape
"delimiter, maximal run of non-delimiter characters, delimiter", so a
regex engine's leftmost scan with these patterns never backtracks into the
captured run; each pass is embedded as a fuel-indexed left-to-right scan
(fuel at least the list length always suffices, and every caller passes
the length).
-/

/-- Pass 1, `re.sub(r'\*\*([^*]+)\*\*', r'\1', s)` (main.py 479): strip
paired bold markers around a nonempty star-free run. -/
def subBold : Nat → List Char → List Char
  | 0, s => s
  | _ + 1, [] => []
  | fuel + 1, c :: rest =>
    if c = '*' then
      match rest with
      | '*' :: rest2 =>
        match rest2.takeWhile (fun x => x ≠ '*'), rest2.dropWhile (fun x => x ≠ '*') with
        | content :: cs, '*' :: '*' :: rest4 => (content :: cs) ++ subBold fuel rest4
        | _, _ => c :: subBold fuel rest
      | _ => c :: subBold fuel rest
    else c :: subBold fuel rest

/-- Pass 2, `re.sub(r'\*([^*]+)\*', r'\1', s)` (main.py 482): strip paired
italic markers. -/
def subItal : Nat → List Char → List Char
  | 0, s => s
  | _ + 1, [] => []
  | fuel + 1, c :: rest =>
    if c = '*' then
      match rest.takeWhile (fun x => x ≠ '*'), rest.dropWhile (fun x => x ≠ '*') with
      | content :: cs, '*' :: rest3 => (content :: cs) ++ subItal fuel rest3
      | _, _ => c :: subItal fuel rest
    else c :: subItal fuel rest

/-- Pass 3, `re.sub(r'```[^`]*```', r'[code block]', s)` (main.py 485):
replace fenced code blocks by a literal placeholder. -/
def subCodeBlock : Nat → List Char → List Char
  | 0, s => s
  | _ + 1, [] => []
  | fuel + 1, c :: rest =>
    if c = '`' then
      match rest with
      | '`' :: '`' :: rest2 =>
        match rest2.dropWhile (fun x => x ≠ '`') with
        | '`' :: '`' :: '`' :: rest4 => "[code block]".data ++ subCodeBlock fuel rest4
        | _ => c :: subCodeBlock fuel rest
      | _ => c :: subCodeBlock fuel rest
    else c :: subCodeBlock fuel rest

/-- Pass 4, `re.sub(r'`([^`]+)`', r'"\1"', s)` (main.py 486): replace
inline code spans by their content in double quotes. -/
def subInlineCode : Nat → List Char → List Char
  | 0, s => s
  | _ + 1, [] => []
  | fuel + 1, c :: rest =>
    if c = '`' then
      match rest.takeWhile (fun x => x ≠ '`'), rest.dropWhile (fun x => x ≠ '`') with
      | content :: cs, '`' :: rest3 => '"' :: ((content :: cs) ++ '"' :: subInlineCode fuel rest3)
      | _, _ => c :: subInlineCode fuel rest
    else c :: subInlineCode fuel rest

/-- Pass 5, `re.sub(r'\[([^\]]+)\]\([^)]+\)', r'\1', s)` (main.py 489):
replace a markdown link by its label. -/
def subLink : Nat → List Char → List Char
  | 0, s => s
  | _ + 1, [] => []
  | fuel + 1, c :: rest =>
    if c = '[' then
      match rest.takeWhile (fun x => x ≠ ']'), rest.dropWhile (fun x => x ≠ ']') with
      | lab :: ls, ']' :: '(' :: rest3 =>
        match rest3.takeWhile (fun x => x ≠ ')'), rest3.dropWhile (fun x => x ≠ ')') with
        | _ :: _, ')' :: rest5 => (lab :: ls) ++ subLink fuel rest5
        | _, _ => c :: subLink fuel rest
      | _, _ => c :: subLink fuel rest
    else c :: subLink fuel rest

/-- First sanitizer pass on a character list, with enough fuel. -/
def boldPass (s : List Char) : List Char := subBold s.length s

/-- Second sanitizer pass on a character list, with enough fuel. -/
def italPass (s : List Char) : List Char := subItal s.length s

/-- Third sanitizer pass on a character list, with enough fuel. -/
def codeBlockPass (s : List Char) : List Char := subCodeBlock s.length s

/-- Fourth sanitizer pass on a character list, with enough fuel. -/
def inlineCodePass (s : List Char) : List Char := subInlineCode s.length s

/-- Fifth sanitizer pass on a character list, with enough fuel. -/
def linkPass (s : List Char) : List Char := subLink s.length s

/-- The output sanitizer `_clean_markdown_response` (main.py 470-491): the
five passes in source order — bold, italic, code blocks, inline code,
links. -/
def _clean_markdown_response (response : String) : String :=
  String.mk (linkPass (inlineCodePass (codeBlockPass (italPass (boldPass response.data)))))

/-! The message pipeline of handle_message (main.py 271-367). -/

/-- Telegram chat type, as tested by
`update.message.chat.type in ['group', 'supergroup']`. -/
inductive ChatType
  | privateChat
  | group
  | supergroup
deriving DecidableEq

/-- Whether the chat type is one of the two group kinds (main.py 280, 313, 344). -/
def ChatType.isGroupScope : ChatType → Bool
  | .group => true
  | .supergroup => true
  | .privateChat => false

/-- One conversation turn: the `conversation_data` dict built in handle_message
(main.py 303-310), with `ai_response` added at main.py 341 once a reply exists.
The wall-clock timestamp is elided. -/
structure Turn where
  user_message : String
  user_name : String
  user_id : Nat
  chat_id : Nat
  chat_type : ChatType
  ai_response : Option String
deriving DecidableEq

/-- The parts of an inbound Telegram text-message update that handle_message reads.
`reply_to_bot` is the conjunction tested at main.py 283-286 (`reply_to_message`
present, its `from_user` present and a bot). -/
structure InMsg where
  text : String
  chat_type : ChatType
  chat_id : Nat
  user_id : Nat
  reply_to_bot : Bool
deriving DecidableEq

/-- Mention detection, main.py 282:
`f"@{bot_username}" in message_text if bot_username else False`. -/
def is_mentioned (bot_username text : String) : Bool :=
  if bot_username = "" then false else strContains text ("@" ++ bot_username)

/-- Name-call detection, main.py 287-288:
`"lyra" in message_text.lower() or "LYRA" in message_text`. -/
def is_called_by_name (text : String) : Bool :=
  strContains (toLowerStr text) "lyra" || strContains text "LYRA"

/-- The group-scope gate of main.py 290: the bot is mentioned, the message is a
reply to the bot, or the bot is called by name. -/
def is_addressed (bot_username : String) (m : InMsg) : Bool :=
  is_mentioned bot_username m.text || m.reply_to_bot || is_called_by_name m.text

/-- The specification's EngagementDecision outcome type (spec section 3). -/
inductive EngagementDecision
  | skip
  | engageDirect
  | engageProactive
deriving DecidableEq

/-- The engagement decision implicit in handle_message (main.py 280-291), expressed
in the specification's vocabulary: a private chat always engages; a group chat
engages exactly when the bot is mentioned, replied to, or called by name; every
other group message is dropped by the early `return`.  No code path produces
`engageProactive` and nothing in the function is randomized. -/
def engagement_decision (bot_username : String) (m : InMsg) : EngagementDecision :=
  if m.chat_type.isGroupScope then
    if is_addressed bot_username m then .engageDirect else .skip
  else .engageDirect

/-- Modelled from the spec: the "fixed topical keyword set (domain terms such as
market/strategy/loss/profit and similar)" of spec section 4.4.  No such keyword
set, and no proactive trigger of any kind, exists anywhere under src/. -/
def topical_keywords : List String := ["market", "strategy", "loss", "profit"]

/-- Whether the message text contains one of the spec's topical keywords. -/
def contains_topical_keyword (text : String) : Bool :=
  topical_keywords.any (fun k => strContains (toLowerStr text) k)

/-- Fallback returned by get_educational_response when `response.text` is falsy
(gemini_client.py 105). -/
def gemini_fallback : String :=
  "I'm having trouble processing that right now. Could you try rephrasing your question?"

/-- Apology returned by get_educational_response when the backend call raises
(gemini_client.py 109). -/
def gemini_error_reply : String :=
  "😅 I'm experiencing some technical difficulties. Please try again in a moment!"

/-- get_educational_response (gemini_client.py 33-109).  The raw outcome of the
`generate_content` call is passed in: an exception (`Except.error`) or a response
whose `.text` may be absent or empty.  The wrapper returns `response.text` when it
is truthy, the fixed fallback string when it is absent or empty, and the fixed
apology string when the call raised — it never raises and never returns an empty
string. -/
def get_educational_response (raw : Except String (Option String)) : String :=
  match raw with
  | .error _ => gemini_error_reply
  | .ok none => gemini_fallback
  | .ok (some t) => if t = "" then gemini_fallback else t

/-- Modelled from the spec: the Memory Store state (data_manager.py is not under
src/).  Per spec section 4.1 a scope is an insertion-ordered sequence of turns;
`store_group_conversation` / `store_conversation` append one turn to the group /
user scope for the given key. -/
structure BotState where
  group_mem : Nat → List Turn
  user_mem : Nat → List Turn

/-- What one handle_message run leaves behind: the updated memory state and the
texts passed to `update.message.reply_text`, in order. -/
structure HandleResult where
  state : BotState
  sent : List String

/-- The turn handle_message stores: inbound text, display name, ids, chat type,
and the reply (main.py 303-310 and 341). -/
def turn_of (m : InMsg) (display_name : String) (reply : Option String) : Turn :=
  { user_message := m.text, user_name := display_name, user_id := m.user_id,
    chat_id := m.chat_id, chat_type := m.chat_type, ai_response := reply }

/-- handle_message (main.py 271-367) on one inbound text message, with the raw
generation-backend outcome passed as `raw`.  A group message that does not address
the bot returns before any memory read or write (main.py 290-291).  Otherwise the
backend wrapper's result is stored as the turn's `ai_response` — in both the group
and the user scope for group chats, in the user scope only for private chats
(main.py 343-353) — and the markdown-cleaned result is sent (main.py 359-360). -/
def handle_message (bot_username : String) (raw : Except String (Option String))
    (display_name : String) (m : InMsg) (s : BotState) : HandleResult :=
  if m.chat_type.isGroupScope && !(is_addressed bot_username m) then
    { state := s, sent := [] }
  else
    let ai_response := get_educational_response raw
    let turn := turn_of m display_name (some ai_response)
    let s' :=
      if m.chat_type.isGroupScope then
        { group_mem := Function.update s.group_mem m.chat_id (s.group_mem m.chat_id ++ [turn]),
          user_mem := Function.update s.user_mem m.user_id (s.user_mem m.user_id ++ [turn]) }
      else
        { s with
          user_mem := Function.update s.user_mem m.user_id (s.user_mem m.user_id ++ [turn]) }
    { state := s', sent := [_clean_markdown_response ai_response] }

/-- Modelled from the spec: `read_recent(scope_kind, scope_key, limit)` of spec
section 4.1 — the last `limit` turns of the scope in insertion order, oldest
first (data_manager.py is not under src/).  At `limit = 5` this is exactly the
window `_format_recent_memories` takes. -/
def read_recent (limit : Nat) (l : List Turn) : List Turn := l.drop (l.length - limit)

/-- The window taken by _format_recent_memories (main.py 455):
`memories[-5:] if len(memories) > 5 else memories`. -/
def recent_window (memories : List Turn) : List Turn :=
  if 5 < memories.length then memories.drop (memories.length - 5) else memories

/-! User display names (main.py 58-64; user_manager.py is not under src/). -/

/-- Python's short-circuit `a or b` on strings: `b` when `a` is empty. -/
def py_or (a b : String) : String := if a = "" then b else a

/-- Modelled from the spec: the display-name derivation of UserManager.register_user
(spec section 4.2; user_manager.py is not under src/): "prefer a human-entered
first name; if absent, use platform username; if both absent, use literal
Unknown".  An absent value is the empty string (Python truthiness). -/
def register_display_name (first_name username : String) : String :=
  if first_name ≠ "" then first_name
  else if username ≠ "" then username
  else "Unknown"

/-- The /start registration call site (main.py 58-64): it passes
`username=user.username or ""` and `first_name=user.first_name or "Unknown"`, so a
missing first name is replaced by the literal "Unknown" before register_user ever
sees the username. -/
def start_display_name (first_name username : String) : String :=
  register_display_name (py_or first_name "Unknown") (py_or username "")

/-! The penalty system (src/penalty_system.py).  Money amounts are Python
numbers (ints and floats); they are embedded as exact rationals.  The
result dicts carry a success flag and a formatted message; the message
text, which no claim concerns, is elided to the flag. -/

/-- PenaltyManager.NEEL_USERNAME (penalty_system.py 18). -/
def NEEL_USERNAME : String := "Er_Stranger"

/-- PenaltyManager.PENALTY_AMOUNT (penalty_system.py 19). -/
def PENALTY_AMOUNT : ℚ := 100

/-- PenaltyManager.SKIP_THRESHOLD (penalty_system.py 21). -/
def SKIP_THRESHOLD : Nat := 2

/-- The per-user record of `self.penalties[username]` (penalty_system.py 51-62).
History entries are (date, amount, running figure) triples; exception entries are
(date, reason) pairs; their status field is constant and elided. -/
structure PenaltyData where
  totalPenalty : ℚ
  paidAmount : ℚ
  missedDays : Nat
  consecutiveSkips : Nat
  lastSkipDate : Option String
  history : List (String × ℚ × ℚ)
  paidHistory : List (String × ℚ × ℚ)
  donatedAmount : ℚ
  exceptions : List (String × String)
deriving DecidableEq

/-- The zero record created when the username is first seen
(penalty_system.py 51-62). -/
def initPenaltyData : PenaltyData :=
  { totalPenalty := 0, paidAmount := 0, missedDays := 0, consecutiveSkips := 0,
    lastSkipDate := none, history := [], paidHistory := [], donatedAmount := 0,
    exceptions := [] }

/-- record_missed_progress (penalty_system.py 46-89).  Only Neel is penalized; a
fresh zero record is created if absent; the consecutive-skip counter grows only on
a new day; the penalty amount is added to the running total and the day recorded. -/
def record_missed_progress (today username : String) (st : Option PenaltyData) :
    Option PenaltyData × Bool :=
  if username = NEEL_USERNAME then
    let d := st.getD initPenaltyData
    let skips := if d.lastSkipDate ≠ some today then d.consecutiveSkips + 1
      else d.consecutiveSkips
    (some { d with
        consecutiveSkips := skips,
        missedDays := d.missedDays + 1,
        totalPenalty := d.totalPenalty + PENALTY_AMOUNT,
        lastSkipDate := some today,
        history := d.history ++ [(today, PENALTY_AMOUNT, d.totalPenalty + PENALTY_AMOUNT)] },
      true)
  else (st, false)

/-- pay_penalty (penalty_system.py 177-214).  Rejected without state change when the
user is not Neel, has no record, the amount is not positive, or the amount exceeds
the pending penalty `total_penalty - paid_amount`; otherwise the amount is added to
`paid_amount` and the payment logged. -/
def pay_penalty (today username : String) (amount : ℚ) (st : Option PenaltyData) :
    Option PenaltyData × Bool :=
  if username = NEEL_USERNAME then
    match st with
    | none => (none, false)
    | some d =>
      if amount ≤ 0 then (some d, false)
      else if d.totalPenalty - d.paidAmount < amount then (some d, false)
      else
        (some { d with
            paidAmount := d.paidAmount + amount,
            paidHistory := d.paidHistory ++
              [(today, amount, d.totalPenalty - d.paidAmount - amount)] },
          true)
  else (st, false)

/-- mark_progress_done (penalty_system.py 151-175).  State change: the
consecutive-skip counter is reset when the last skip is not today; the penalty
figures are untouched. -/
def mark_progress_done (today username : String) (st : Option PenaltyData) :
    Option PenaltyData × Bool :=
  if username = NEEL_USERNAME then
    match st with
    | none => (none, true)
    | some d =>
      if d.lastSkipDate ≠ some today then (some { d with consecutiveSkips := 0 }, true)
      else (some d, true)
  else (st, false)

/-- check_donation_trigger (penalty_system.py 216-241).  When more than
SKIP_THRESHOLD consecutive skips and a positive pending penalty, the pending
amount moves to `donated_amount` and both penalty figures reset to zero. -/
def check_donation_trigger (username : String) (st : Option PenaltyData) :
    Option PenaltyData × Bool :=
  if username = NEEL_USERNAME then
    match st with
    | none => (none, false)
    | some d =>
      if SKIP_THRESHOLD < d.consecutiveSkips then
        if 0 < d.totalPenalty - d.paidAmount then
          (some { d with
              donatedAmount := d.donatedAmount + (d.totalPenalty - d.paidAmount),
              totalPenalty := 0,
              paidAmount := 0 },
            true)
        else (some d, false)
      else (some d, false)
  else (st, false)

/-- The pending penalty `total_penalty - paid_amount` (penalty_system.py 186),
zero for an absent record. -/
def pending_of : Option PenaltyData → ℚ
  | none => 0
  | some d => d.totalPenalty - d.paidAmount

/-- The states reachable from the empty store by any sequence of
record_missed_progress, pay_penalty, mark_progress_done and
check_donation_trigger calls, with arbitrary dates, usernames and amounts. -/
inductive PReachable : Option PenaltyData → Prop
  | init : PReachable none
  | record (today username : String) (st : Option PenaltyData) :
      PReachable st → PReachable (record_missed_progress today username st).1
  | pay (today username : String) (amount : ℚ) (st : Option PenaltyData) :
      PReachable st → PReachable (pay_penalty today username amount st).1
  | mark (today username : String) (st : Option PenaltyData) :
      PReachable st → PReachable (mark_progress_done today username st).1
  | donate (username : String) (st : Option PenaltyData) :
      PReachable st → PReachable (check_donation_trigger username st).1

/-- The payment invariant: a present record keeps `0 ≤ paid_amount ≤ total_penalty`. -/
def PInv : Option PenaltyData → Prop
  | none => True
  | some d => 0 ≤ d.paidAmount ∧ d.paidAmount ≤ d.totalPenalty

/-! Video extraction (src/video_extractor.py). -/

/-- The result dict of extract_video (video_extractor.py 24): success flag plus,
depending on the branch, an error message or a file path and title. -/
structure ExtractResult where
  success : Bool
  error : String := ""
  video_path : String := ""
  title : String := ""
deriving DecidableEq

/-- _is_valid_social_url (video_extractor.py 49-55): the lowercased URL contains
one of the six Instagram / X domain substrings. -/
def _is_valid_social_url (url : String) : Bool :=
  ["instagram.com", "instagr.am", "insta.am", "x.com", "twitter.com", "post.x.com"].any
    (fun domain => strContains (toLowerStr url) domain)

/-- The error message for a rejected URL (video_extractor.py 30). -/
def invalid_url_error : String :=
  "❌ Please provide a valid Instagram or X (Twitter) post link"

/-- extract_video (video_extractor.py 21-47): the guard path.  The download itself
(_download_video, run through yt-dlp in an executor) is an external effect passed
in as `download`; it is reached only when the URL passes the domain check. -/
def extract_video (download : String → ExtractResult) (url : String) : ExtractResult :=
  if !(_is_valid_social_url url) then { success := false, error := invalid_url_error }
  else download url

/-! Concrete inputs used by counterexamples and witnesses. -/

/-- A group message with no mention, no reply-to-bot, no name-call and no topical
keyword. -/
def m_skip : InMsg :=
  { text := "good morning folks", chat_type := .group, chat_id := 100, user_id := 7,
    reply_to_bot := false }

/-- A group message containing topical keywords but no mention, reply or name-call. -/
def m_keyword : InMsg :=
  { text := "the market strategy gave profit not loss", chat_type := .group,
    chat_id := 100, user_id := 7, reply_to_bot := false }

/-- A private-chat message. -/
def m_private : InMsg :=
  { text := "explain stock options", chat_type := .privateChat, chat_id := 7,
    user_id := 7, reply_to_bot := false }

/-- The empty memory store. -/
def s_empty : BotState := { group_mem := fun _ => [], user_mem := fun _ => [] }

/-! Theorems. -/

/-- A string without stars is untouched by the bold pass. -/
theorem subBold_of_no_star (fuel : Nat) :
    ∀ s : List Char, (∀ c ∈ s, c ≠ '*') → subBold fuel s = s := by
  induction fuel with
  | zero => intro s _; rfl
  | succ n ih =>
    intro s hs
    cases s with
    | nil => rfl
    | cons c rest =>
      have hc : c ≠ '*' := hs c (List.mem_cons_self _ _)
      simp only [subBold, if_neg hc]
      exact congrArg (c :: ·) (ih rest fun x hx => hs x (List.mem_cons_of_mem _ hx))

/-- A string without stars is untouched by the italic pass. -/
theorem subItal_of_no_star (fuel : Nat) :
    ∀ s : List Char, (∀ c ∈ s, c ≠ '*') → subItal fuel s = s := by
  induction fuel with
  | zero => intro s _; rfl
  | succ n ih =>
    intro s hs
    cases s with
    | nil => rfl
    | cons c rest =>
      have hc : c ≠ '*' := hs c (List.mem_cons_self _ _)
      simp only [subItal, if_neg hc]
      exact congrArg (c :: ·) (ih rest fun x hx => hs x (List.mem_cons_of_mem _ hx))

/-- A string without backticks is untouched by the code-block pass. -/
theorem subCodeBlock_of_no_tick (fuel : Nat) :
    ∀ s : List Char, (∀ c ∈ s, c ≠ '`') → subCodeBlock fuel s = s := by
  induction fuel with
  | zero => intro s _; rfl
  | succ n ih =>
    intro s hs
    cases s with
    | nil => rfl
    | cons c rest =>
      have hc : c ≠ '`' := hs c (List.mem_cons_self _ _)
      simp only [subCodeBlock, if_neg hc]
      exact congrArg (c :: ·) (ih rest fun x hx => hs x (List.mem_cons_of_mem _ hx))

/-- A string without backticks is untouched by the inline-code pass. -/
theorem subInlineCode_of_no_tick (fuel : Nat) :
    ∀ s : List Char, (∀ c ∈ s, c ≠ '`') → subInlineCode fuel s = s := by
  induction fuel with
  | zero => intro s _; rfl
  | succ n ih =>
    intro s hs
    cases s with
    | nil => rfl
    | cons c rest =>
      have hc : c ≠ '`' := hs c (List.mem_cons_self _ _)
      simp only [subInlineCode, if_neg hc]
      exact congrArg (c :: ·) (ih rest fun x hx => hs x (List.mem_cons_of_mem _ hx))

/-- A string without opening brackets is untouched by the link pass. -/
theorem subLink_of_no_bracket (fuel : Nat) :
    ∀ s : List Char, (∀ c ∈ s, c ≠ '[') → subLink fuel s = s := by
  induction fuel with
  | zero => intro s _; rfl
  | succ n ih =>
    intro s hs
    cases s with
    | nil => rfl
    | cons c rest =>
      have hc : c ≠ '[' := hs c (List.mem_cons_self _ _)
      simp only [subLink, if_neg hc]
      exact congrArg (c :: ·) (ih rest fun x hx => hs x (List.mem_cons_of_mem _ hx))

/-- The sanitizer is the identity on strings with no markup trigger character. -/
theorem clean_markdown_id_of_plain (s : String)
    (h : ∀ c ∈ s.data, c ≠ '*' ∧ c ≠ '`' ∧ c ≠ '[') :
    _clean_markdown_response s = s := by
  unfold _clean_markdown_response linkPass inlineCodePass codeBlockPass italPass boldPass
  rw [subBold_of_no_star _ _ fun c hc => (h c hc).1]
  rw [subItal_of_no_star _ _ fun c hc => (h c hc).1]
  rw [subCodeBlock_of_no_tick _ _ fun c hc => (h c hc).2.1]
  rw [subInlineCode_of_no_tick _ _ fun c hc => (h c hc).2.1]
  rw [subLink_of_no_bracket _ _ fun c hc => (h c hc).2.2]

/-- C4, counterexample: the sanitizer is not idempotent.  On nested link markup
the single left-to-right link pass strips only the outer layer per application:
one pass sends "[[x](y)](z)" to "[x](z)", a second pass sends that to "x". -/
theorem c4_counterexample :
    _clean_markdown_response (_clean_markdown_response "[[x](y)](z)")
      ≠ _clean_markdown_response "[[x](y)](z)" := by decide

/-- C4 (amended): the sanitizer is idempotent on every string containing none of
the markup trigger characters star, backtick and opening square bracket (it is
then the identity); it is not idempotent in general, because nested link markup
is stripped one layer per pass. -/
theorem c4_clean_markdown_idempotent_on_plain (x : String)
    (h : ∀ c ∈ x.data, c ≠ '*' ∧ c ≠ '`' ∧ c ≠ '[') :
    _clean_markdown_response (_clean_markdown_response x) = _clean_markdown_response x := by
  rw [clean_markdown_id_of_plain x h, clean_markdown_id_of_plain x h]

/-- Witness for C4: the amended idempotence at a concrete markup-free string. -/
theorem c4_clean_markdown_idempotent_on_plain_witness :
    (∀ c ∈ ("hello world" : String).data, c ≠ '*' ∧ c ≠ '`' ∧ c ≠ '[') ∧
      _clean_markdown_response (_clean_markdown_response "hello world")
        = _clean_markdown_response "hello world" :=
  ⟨by decide, c4_clean_markdown_idempotent_on_plain "hello world" (by decide)⟩

/-- C1, counterexample: a group message with no mention, no reply-to-bot, no
name-call and no topical keyword hits the early `return` of main.py 290-291 —
group memory gains no turn at all and nothing is sent, whereas the claim requires
exactly one new group-memory turn with a null reply. -/
theorem c1_counterexample :
    engagement_decision "FinBot" m_skip = EngagementDecision.skip ∧
      contains_topical_keyword m_skip.text = false ∧
      ((handle_message "FinBot" (.ok (some "hi")) "Alice" m_skip s_empty).state.group_mem
          m_skip.chat_id).length = 0 ∧
      ((handle_message "FinBot" (.ok (some "hi")) "Alice" m_skip s_empty).state.group_mem
          m_skip.chat_id).length ≠ (s_empty.group_mem m_skip.chat_id).length + 1 ∧
      (handle_message "FinBot" (.ok (some "hi")) "Alice" m_skip s_empty).sent = [] := by
  decide

/-- C1 (amended): a skipped group-scope message (no mention, not a reply to the
bot, no name-call) leaves the whole memory state unchanged and sends no outbound
message — the engagement gate drops the message before any observation is stored. -/
theorem c1_skip_writes_nothing (bot_username display_name : String)
    (raw : Except String (Option String)) (m : InMsg) (s : BotState)
    (hg : m.chat_type.isGroupScope = true)
    (ha : is_addressed bot_username m = false) :
    handle_message bot_username raw display_name m s = { state := s, sent := [] } := by
  simp [handle_message, hg, ha]

/-- Witness for C1: the amended statement at a concrete skipped group message. -/
theorem c1_skip_writes_nothing_witness :
    m_skip.chat_type.isGroupScope = true ∧ is_addressed "FinBot" m_skip = false ∧
      handle_message "FinBot" (.ok (some "hi")) "Alice" m_skip s_empty
        = { state := s_empty, sent := [] } :=
  ⟨rfl, by decide,
    c1_skip_writes_nothing "FinBot" "Alice" (.ok (some "hi")) m_skip s_empty rfl (by decide)⟩

/-- C2, counterexample: a group message whose text contains topical keywords and
carries no mention, reply or name-call is skipped, not engaged proactively — the
code has no proactive trigger at all. -/
theorem c2_counterexample :
    contains_topical_keyword m_keyword.text = true ∧
      is_mentioned "FinBot" m_keyword.text = false ∧
      m_keyword.reply_to_bot = false ∧
      is_called_by_name m_keyword.text = false ∧
      engagement_decision "FinBot" m_keyword ≠ EngagementDecision.engageProactive ∧
      engagement_decision "FinBot" m_keyword = EngagementDecision.skip := by
  decide

/-- C2 (amended): in group scope with no mention, no reply to the bot and no
name-call, the engagement decision is always Skip, whatever the message text —
there is no keyword trigger and no random draw in the code. -/
theorem c2_unaddressed_group_always_skip (bot_username : String) (m : InMsg)
    (hg : m.chat_type.isGroupScope = true)
    (ha : is_addressed bot_username m = false) :
    engagement_decision bot_username m = EngagementDecision.skip := by
  simp [engagement_decision, hg, ha]

/-- Witness for C2: the amended statement at a concrete keyword-bearing message. -/
theorem c2_unaddressed_group_always_skip_witness :
    m_keyword.chat_type.isGroupScope = true ∧ is_addressed "FinBot" m_keyword = false ∧
      engagement_decision "FinBot" m_keyword = EngagementDecision.skip :=
  ⟨rfl, by decide, c2_unaddressed_group_always_skip "FinBot" m_keyword rfl (by decide)⟩

/-- C3, counterexample: when the backend result is the empty string, the pipeline
does not suppress anything — the client wrapper substitutes its fixed fallback
string, which is stored as the turn's reply and dispatched. -/
theorem c3_counterexample :
    (handle_message "FinBot" (.ok (some "")) "Alice" m_private s_empty).sent ≠ [] ∧
      (handle_message "FinBot" (.ok (some "")) "Alice" m_private s_empty).state.user_mem
          m_private.user_id
        = [turn_of m_private "Alice" (some gemini_fallback)] := by
  constructor
  · decide
  · decide

/-- C3 (amended): an empty or null backend result is not suppressed:
get_educational_response replaces it with the fixed non-empty fallback string, and
the pipeline stores that fallback as the turn's reply and dispatches its cleaned
form.  No silence sentinel exists in the code. -/
theorem c3_empty_result_not_suppressed (bot_username display_name : String)
    (raw : Except String (Option String)) (m : InMsg) (s : BotState)
    (hraw : raw = .ok none ∨ raw = .ok (some ""))
    (hengage : ¬(m.chat_type.isGroupScope = true ∧ is_addressed bot_username m = false)) :
    (handle_message bot_username raw display_name m s).sent
        = [_clean_markdown_response gemini_fallback] ∧
      (handle_message bot_username raw display_name m s).state.user_mem m.user_id
        = s.user_mem m.user_id ++ [turn_of m display_name (some gemini_fallback)] := by
  have hres : get_educational_response raw = gemini_fallback := by
    rcases hraw with h | h <;> simp [h, get_educational_response]
  cases hg : m.chat_type.isGroupScope with
  | false => simp [handle_message, hg, hres, Function.update_same]
  | true =>
      cases ha : is_addressed bot_username m with
      | false => exact absurd ⟨hg, ha⟩ hengage
      | true => simp [handle_message, hg, ha, hres, Function.update_same]

/-- Witness for C3: the amended statement at a concrete null backend result. -/
theorem c3_empty_result_not_suppressed_witness :
    (handle_message "FinBot" (.ok none) "Alice" m_private s_empty).sent
        = [_clean_markdown_response gemini_fallback] ∧
      (handle_message "FinBot" (.ok none) "Alice" m_private s_empty).state.user_mem
          m_private.user_id
        = s_empty.user_mem m_private.user_id
            ++ [turn_of m_private "Alice" (some gemini_fallback)] :=
  c3_empty_result_not_suppressed "FinBot" "Alice" (.ok none) m_private s_empty
    (Or.inl rfl) (by decide)

/-- C5: for every scope contents built by appends and every limit, read_recent
returns a sequence of length min(limit, length) that is a suffix of the scope in
original insertion order (the rest of the scope is the prefix before it), and
the window _format_recent_memories actually takes is read_recent at limit 5. -/
theorem c5_read_recent_window (l : List Turn) (k : Nat) :
    (read_recent k l).length = min k l.length ∧
      l.take (l.length - k) ++ read_recent k l = l ∧
      recent_window l = read_recent 5 l := by
  refine ⟨?_, ?_, ?_⟩
  · simp only [read_recent, List.length_drop]
    omega
  · simp [read_recent, List.take_append_drop]
  · unfold recent_window read_recent
    split
    · rfl
    · next h =>
        have h5 : l.length - 5 = 0 := by omega
        simp [h5]

/-- C6: a turn completed with a non-silent reply is written to both the group
scope (under the chat id) and the sender's direct scope when the message came
from a group chat, and to the sender's direct scope only when it came from a
private chat, in which case the whole group-scope store is unchanged. -/
theorem c6_memory_scopes (bot_username display_name : String)
    (raw : Except String (Option String)) (m : InMsg) (s : BotState)
    (hns : get_educational_response raw ≠ "") :
    (m.chat_type.isGroupScope = true → is_addressed bot_username m = true →
      (handle_message bot_username raw display_name m s).state.group_mem m.chat_id
          = s.group_mem m.chat_id
              ++ [turn_of m display_name (some (get_educational_response raw))] ∧
        (handle_message bot_username raw display_name m s).state.user_mem m.user_id
          = s.user_mem m.user_id
              ++ [turn_of m display_name (some (get_educational_response raw))]) ∧
    (m.chat_type.isGroupScope = false →
      (handle_message bot_username raw display_name m s).state.user_mem m.user_id
          = s.user_mem m.user_id
              ++ [turn_of m display_name (some (get_educational_response raw))] ∧
        (handle_message bot_username raw display_name m s).state.group_mem
          = s.group_mem) := by
  constructor
  · intro hg ha
    simp [handle_message, hg, ha, Function.update_same]
  · intro hg
    simp [handle_message, hg, Function.update_same]

/-- Witness for C6: the private-chat half at a concrete message. -/
theorem c6_memory_scopes_witness :
    (handle_message "FinBot" (.ok (some "hi")) "Alice" m_private s_empty).state.user_mem
          m_private.user_id
        = s_empty.user_mem m_private.user_id
            ++ [turn_of m_private "Alice" (some (get_educational_response (.ok (some "hi"))))] ∧
      (handle_message "FinBot" (.ok (some "hi")) "Alice" m_private s_empty).state.group_mem
        = s_empty.group_mem :=
  (c6_memory_scopes "FinBot" "Alice" (.ok (some "hi")) m_private s_empty (by decide)).2 rfl

/-- C7, counterexample: when the backend call raises, the user does receive an
outbound message — the client wrapper converts the exception into its fixed
apology string and the pipeline dispatches the cleaned apology, so "no outbound
message" is false. -/
theorem c7_counterexample :
    (handle_message "FinBot" (.error "API timeout") "Alice" m_private s_empty).sent
        = [_clean_markdown_response gemini_error_reply] ∧
      (handle_message "FinBot" (.error "API timeout") "Alice" m_private s_empty).sent ≠ [] := by
  constructor
  · rfl
  · decide

/-- C7 (amended): every generation-backend exception is caught inside
get_educational_response (which is total: it returns the fixed apology string for
any exception, so nothing propagates to the hosting process), and the pipeline
then stores the apology as the turn's reply and sends its cleaned form as the one
outbound message. -/
theorem c7_backend_exception_handled (bot_username display_name e : String)
    (m : InMsg) (s : BotState)
    (hengage : ¬(m.chat_type.isGroupScope = true ∧ is_addressed bot_username m = false)) :
    get_educational_response (.error e) = gemini_error_reply ∧
      (handle_message bot_username (.error e) display_name m s).sent
        = [_clean_markdown_response gemini_error_reply] ∧
      (handle_message bot_username (.error e) display_name m s).state.user_mem m.user_id
        = s.user_mem m.user_id ++ [turn_of m display_name (some gemini_error_reply)] := by
  refine ⟨rfl, ?_⟩
  cases hg : m.chat_type.isGroupScope with
  | false => simp [handle_message, hg, get_educational_response, Function.update_same]
  | true =>
      cases ha : is_addressed bot_username m with
      | false => exact absurd ⟨hg, ha⟩ hengage
      | true => simp [handle_message, hg, ha, get_educational_response, Function.update_same]

/-- Witness for C7: the amended statement at a concrete raised exception. -/
theorem c7_backend_exception_handled_witness :
    get_educational_response (.error "API timeout") = gemini_error_reply ∧
      (handle_message "FinBot" (.error "API timeout") "Alice" m_private s_empty).sent
        = [_clean_markdown_response gemini_error_reply] ∧
      (handle_message "FinBot" (.error "API timeout") "Alice" m_private s_empty).state.user_mem
          m_private.user_id
        = s_empty.user_mem m_private.user_id
            ++ [turn_of m_private "Alice" (some gemini_error_reply)] :=
  c7_backend_exception_handled "FinBot" "Alice" "API timeout" m_private s_empty (by decide)

/-- C8, counterexample: a user with no first name but with a platform username is
stored as "Unknown", not under the username — the /start call site substitutes
"Unknown" for the missing first name before the username fallback can apply. -/
theorem c8_counterexample :
    start_display_name "" "neel_b" = "Unknown" ∧ start_display_name "" "neel_b" ≠ "neel_b" := by
  decide

/-- C8 (amended): the display name stored at registration is the human-entered
first name when present and the literal "Unknown" otherwise — the platform
username is never used — and it is never empty. -/
theorem c8_display_name_first_name_or_unknown (first_name username : String) :
    start_display_name first_name username
        = (if first_name = "" then "Unknown" else first_name) ∧
      start_display_name first_name username ≠ "" := by
  by_cases h : first_name = "" <;>
    simp [start_display_name, register_display_name, py_or, h]

/-- record_missed_progress preserves the payment invariant. -/
theorem pinv_record (today username : String) (st : Option PenaltyData) (h : PInv st) :
    PInv (record_missed_progress today username st).1 := by
  by_cases hu : username = NEEL_USERNAME
  · cases st with
    | none =>
        simp [record_missed_progress, hu, PInv, initPenaltyData, PENALTY_AMOUNT]
    | some d =>
        obtain ⟨h1, h2⟩ := h
        simp only [record_missed_progress, hu, if_true, Option.getD, PInv]
        have hp : (0 : ℚ) < PENALTY_AMOUNT := by norm_num [PENALTY_AMOUNT]
        exact ⟨h1, by linarith⟩
  · simpa [record_missed_progress, hu] using h

/-- pay_penalty preserves the payment invariant. -/
theorem pinv_pay (today username : String) (amount : ℚ) (st : Option PenaltyData)
    (h : PInv st) : PInv (pay_penalty today username amount st).1 := by
  by_cases hu : username = NEEL_USERNAME
  · cases st with
    | none => simp [pay_penalty, hu, PInv]
    | some d =>
        obtain ⟨h1, h2⟩ := h
        by_cases hA : amount ≤ 0
        · simpa [pay_penalty, hu, hA, PInv] using ⟨h1, h2⟩
        · by_cases hB : d.totalPenalty - d.paidAmount < amount
          · simpa [pay_penalty, hu, hA, hB, PInv] using ⟨h1, h2⟩
          · push_neg at hA hB
            simp only [pay_penalty, hu, if_true, not_le.mpr hA, if_false,
              not_lt.mpr hB, PInv]
            exact ⟨by linarith, by linarith⟩
  · simpa [pay_penalty, hu] using h

/-- mark_progress_done preserves the payment invariant. -/
theorem pinv_mark (today username : String) (st : Option PenaltyData) (h : PInv st) :
    PInv (mark_progress_done today username st).1 := by
  by_cases hu : username = NEEL_USERNAME
  · cases st with
    | none => simp [mark_progress_done, hu, PInv]
    | some d =>
        obtain ⟨h1, h2⟩ := h
        by_cases hd : d.lastSkipDate ≠ some today
        · simpa [mark_progress_done, hu, hd, PInv] using ⟨h1, h2⟩
        · simpa [mark_progress_done, hu, hd, PInv] using ⟨h1, h2⟩
  · simpa [mark_progress_done, hu] using h

/-- check_donation_trigger preserves the payment invariant. -/
theorem pinv_donate (username : String) (st : Option PenaltyData) (h : PInv st) :
    PInv (check_donation_trigger username st).1 := by
  by_cases hu : username = NEEL_USERNAME
  · cases st with
    | none => simp [check_donation_trigger, hu, PInv]
    | some d =>
        obtain ⟨h1, h2⟩ := h
        by_cases hs : SKIP_THRESHOLD < d.consecutiveSkips
        · by_cases hp : 0 < d.totalPenalty - d.paidAmount
          · simp [check_donation_trigger, hu, hs, hp, PInv]
          · simpa [check_donation_trigger, hu, hs, hp, PInv] using ⟨h1, h2⟩
        · simpa [check_donation_trigger, hu, hs, PInv] using ⟨h1, h2⟩
  · simpa [check_donation_trigger, hu] using h

/-- pay_penalty rejects a non-positive amount, or one exceeding the pending
penalty, leaving the state unchanged and reporting failure. -/
theorem pay_penalty_reject (today username : String) (amount : ℚ)
    (st : Option PenaltyData) (h : amount ≤ 0 ∨ pending_of st < amount) :
    pay_penalty today username amount st = (st, false) := by
  by_cases hu : username = NEEL_USERNAME
  · cases st with
    | none => simp [pay_penalty, hu]
    | some d =>
        rcases h with hA | hB
        · simp [pay_penalty, hu, hA]
        · by_cases hA : amount ≤ 0
          · simp [pay_penalty, hu, hA]
          · simp only [pending_of] at hB
            simp [pay_penalty, hu, hA, hB]
  · simp [pay_penalty, hu]

/-- C9: every state reachable from the empty penalty store by any sequence of
record_missed_progress, pay_penalty, mark_progress_done and
check_donation_trigger calls satisfies 0 ≤ paid_amount ≤ total_penalty; and
pay_penalty rejects any non-positive amount, and any amount exceeding the pending
penalty, leaving the state unchanged. -/
theorem c9_penalty_invariant :
    (∀ st, PReachable st → PInv st) ∧
      (∀ (today username : String) (amount : ℚ) (st : Option PenaltyData),
        amount ≤ 0 ∨ pending_of st < amount →
          pay_penalty today username amount st = (st, false)) := by
  constructor
  · intro st h
    induction h with
    | init => trivial
    | record today username st _ ih => exact pinv_record today username st ih
    | pay today username amount st _ ih => exact pinv_pay today username amount st ih
    | mark today username st _ ih => exact pinv_mark today username st ih
    | donate username st _ ih => exact pinv_donate username st ih
  · exact fun today username amount st h => pay_penalty_reject today username amount st h

/-- Witness for C9: the invariant at a concrete reachable state, and a concrete
rejected payment. -/
theorem c9_penalty_invariant_witness :
    PInv (record_missed_progress "2025-01-01" "Er_Stranger" none).1 ∧
      pay_penalty "2025-01-02" "Er_Stranger" (-5) none = (none, false) :=
  ⟨c9_penalty_invariant.1 _
      (PReachable.record "2025-01-01" "Er_Stranger" none PReachable.init),
    c9_penalty_invariant.2 "2025-01-02" "Er_Stranger" (-5) none (Or.inl (by norm_num))⟩

/-- C10: a URL whose lowercased form contains none of the six Instagram / X
domain substrings is rejected: success is false, the error message is the fixed
non-empty help text, and the downloader is never reached (the result is the same
whatever downloader is supplied). -/
theorem c10_invalid_url_rejected (download : String → ExtractResult) (url : String)
    (h : _is_valid_social_url url = false) :
    (extract_video download url).success = false ∧
      (extract_video download url).error = invalid_url_error ∧
      (extract_video download url).error ≠ "" ∧
      extract_video download url
        = extract_video (fun u => { success := true, video_path := u }) url := by
  have he : ∀ dl : String → ExtractResult,
      extract_video dl url = { success := false, error := invalid_url_error } := by
    intro dl
    simp [extract_video, h]
  refine ⟨by rw [he], by rw [he], by rw [he]; decide, by rw [he, he]⟩

/-- Witness for C10: rejection at a concrete non-social URL and downloader. -/
theorem c10_invalid_url_rejected_witness :
    _is_valid_social_url "https://youtube.com/watch" = false ∧
      ((extract_video (fun u => { success := true, video_path := u })
            "https://youtube.com/watch").success = false ∧
        (extract_video (fun u => { success := true, video_path := u })
            "https://youtube.com/watch").error = invalid_url_error ∧
        (extract_video (fun u => { success := true, video_path := u })
            "https://youtube.com/watch").error ≠ "" ∧
        extract_video (fun u => ({ success := true, video_path := u } : ExtractResult))
            "https://youtube.com/watch"
          = extract_video (fun u => { success := true, video_path := u })
              "https://youtube.com/watch") :=
  ⟨by decide,
    c10_invalid_url_rejected (fun u => { success := true, video_path := u })
      "https://youtube.com/watch" (by decide)⟩
